import Mathlib

/-!
Verification of the pathways-agent intake-to-match pipeline.

The definitions below are a shallow embedding of the Python sources:
* `backend-fastapi/services/provider_ranker.py` (`calculate_distance`, `rank_providers`)
* `backend-fastapi/main.py` (`calculate_distance`, `rank_providers` — the variant with
  field validation and a top-5 cutoff)
* `backend-fastapi/services/provider_loader.py` (`get_providers`, the module cache)
* `backend-fastapi/services/specialty_service.py` (LLM recommendations and fallback)
* `backend/services/voice_service.py` (transcription adapter, LLM extraction, fallback
  extraction)

Python `dict` provider records may lack keys, so every field of `Provider` is an
`Option`.  Machine floats are modelled as exact rationals (all the constants involved
are decimal literals and the arithmetic is +, *, /, abs, so the value-level reasoning
is faithful).  Strings are modelled as Lean `String` restricted to ASCII, matching the
data that actually flows through the service.
-/

namespace Pathways

/-- A provider record as loaded from `providers.json`; a missing dict key is `none`.
Fields are those read by the two `rank_providers` variants. -/
structure Provider where
  name : Option String
  specialty : Option String
  zip_code : Option String
  insurances : Option (List String)
  distance : Option ℚ
  availability_date : Option String
deriving DecidableEq, Repr

/-- Python `s.isdigit()` for ASCII strings: non-empty and all characters are digits. -/
def pyIsDigit (s : String) : Bool :=
  !s.data.isEmpty && s.data.all Char.isDigit

/-- `int(s[:5])` for a digit string: the numeric value of the first five characters. -/
def parseDigits (cs : List Char) : Nat :=
  cs.foldl (fun a c => a * 10 + (c.toNat - 48)) 0

/-- `int(s[:5]) if s.isdigit() else 10000` — the zip parsing used by both
`calculate_distance` implementations. -/
def zip5 (s : String) : Nat :=
  if pyIsDigit s then parseDigits (s.data.take 5) else 10000

/-- `calculate_distance` from `backend-fastapi/services/provider_ranker.py`:
`abs(zip1_num - zip2_num) / 1000.0`.  There is no empty-string check; the
`except` branch returning 50.0 is unreachable for ASCII inputs (an all-digit
ASCII string always converts). -/
def calculate_distance (zip1 zip2 : String) : ℚ :=
  (((zip5 zip1 : ℤ) - (zip5 zip2 : ℤ)).natAbs : ℚ) / 1000

/-- `calculate_distance` from `backend-fastapi/main.py`: identical arithmetic but
with an explicit `if not zip1 or not zip2: return 50.0` guard. -/
def main_calculate_distance (zip1 zip2 : String) : ℚ :=
  if zip1 = "" ∨ zip2 = "" then 50
  else (((zip5 zip1 : ℤ) - (zip5 zip2 : ℤ)).natAbs : ℚ) / 1000

/-- One entry of the list built by `rank_providers` in `provider_ranker.py`
(`name`/`specialty`/`availability` come from `provider.get(...)`, hence `Option`). -/
structure RankedEntry where
  name : Option String
  specialty : Option String
  distance : ℚ
  availability : Option String
  ranking_reason : String
  score : ℚ
deriving DecidableEq, Repr

/-- The loop body of `rank_providers` in `provider_ranker.py`.  All dict reads use
`.get` with defaults, so no exception can occur and no provider is ever skipped. -/
def score_provider (specialties : List String) (target_zip target_insurance : String)
    (p : Provider) : RankedEntry :=
  let specialty_match : ℚ :=
    match p.specialty with
    | some s => if s ∈ specialties then 1 else 0.3
    | none => 0.3
  let distance := calculate_distance target_zip (p.zip_code.getD "")
  let insurance_match : ℚ :=
    if target_insurance ∈ p.insurances.getD [] then 1 else 0.5
  let score := specialty_match * 0.5 + insurance_match * 0.3 + 1 / (1 + distance) * 0.2
  let reasons :=
    (if specialty_match > 0.8 then ["Specialty match"] else []) ++
    (if insurance_match > 0.8 then ["Insurance match"] else []) ++
    (if distance < 10 then ["Nearby provider"] else [])
  let ranking_reason := if reasons.isEmpty then "General match" else ", ".intercalate reasons
  { name := p.name, specialty := p.specialty, distance := distance,
    availability := p.availability_date, ranking_reason := ranking_reason, score := score }

/-- The comparison realised by Python's stable `list.sort(key=score, reverse=True)`:
`a` may come before `b` iff `a.score ≥ b.score`. -/
def scoreGE (a b : RankedEntry) : Prop := b.score ≤ a.score

instance : DecidableRel scoreGE := fun a b => inferInstanceAs (Decidable (b.score ≤ a.score))

instance : IsTotal RankedEntry scoreGE := ⟨fun a b => le_total b.score a.score⟩

instance : IsTrans RankedEntry scoreGE := ⟨fun _ _ _ hab hbc => le_trans hbc hab⟩

/-- `rank_providers` from `provider_ranker.py`: score every provider, stable-sort by
score descending, return the first three (`ranked[:3]`).  `List.insertionSort` with
`scoreGE` is a stable descending sort, exactly like Python's stable sort with
`reverse=True`. -/
def rank_providers (providers : List Provider) (specialties : List String)
    (target_zip target_insurance : String) : List RankedEntry :=
  (((providers.map (score_provider specialties target_zip target_insurance)).insertionSort
    scoreGE).take 3)

/-- The distance proxy is never negative. -/
lemma calculate_distance_nonneg (zip1 zip2 : String) : 0 ≤ calculate_distance zip1 zip2 := by
  unfold calculate_distance
  positivity

/-- Inserting an entry with `orderedInsert scoreGE` puts it in front of exactly the
equal-score entries it would precede in Python's stable sort: on the score-`c` fibre
the insertion prepends the new entry when its score is `c` and is invisible
otherwise. -/
lemma filter_score_orderedInsert (c : ℚ) (x : RankedEntry) (m : List RankedEntry) :
    (m.orderedInsert scoreGE x).filter (fun e => decide (e.score = c)) =
      if x.score = c then x :: m.filter (fun e => decide (e.score = c))
      else m.filter (fun e => decide (e.score = c)) := by
  induction m with
  | nil =>
    by_cases hx : x.score = c <;> simp [List.orderedInsert, hx]
  | cons b t ih =>
    by_cases hxb : scoreGE x b
    · rw [List.orderedInsert, if_pos hxb]
      by_cases hx : x.score = c <;> simp [List.filter_cons, hx]
    · rw [List.orderedInsert, if_neg hxb]
      by_cases hx : x.score = c
      · have hb : ¬(b.score = c) := by
          intro hbc
          exact hxb (le_of_eq (hbc.trans hx.symm))
        simp [List.filter_cons, hb, ih, hx]
      · by_cases hb : b.score = c <;> simp [List.filter_cons, hb, ih, hx]

/-- Stability of the embedded sort: every score fibre of the sorted list equals the
corresponding fibre of the input, in input order. -/
lemma filter_score_insertionSort (c : ℚ) (l : List RankedEntry) :
    (l.insertionSort scoreGE).filter (fun e => decide (e.score = c)) =
      l.filter (fun e => decide (e.score = c)) := by
  induction l with
  | nil => rfl
  | cons a t ih =>
    rw [List.insertionSort, filter_score_orderedInsert]
    by_cases h : a.score = c <;> simp [List.filter_cons, h, ih]

/-- **C1.** For every provider list, recommended-specialty list, target zip and target
insurance, `rank_providers` (whose cutoff `k` is hard-coded to its default 3) returns
a sequence of length `min 3 (number of candidates)` — every candidate is processed
successfully, none is dropped — sorted by score in descending order, and candidates
with equal scores appear in the same relative order as in the input: each score fibre
of the output is a prefix of the corresponding fibre of the scored input. -/
theorem C1_rank_providers_length_sorted_stable
    (providers : List Provider) (specialties : List String)
    (target_zip target_insurance : String) :
    (rank_providers providers specialties target_zip target_insurance).length
        = min 3 providers.length
    ∧ (rank_providers providers specialties target_zip target_insurance).Sorted scoreGE
    ∧ ∀ c : ℚ,
        ((rank_providers providers specialties target_zip target_insurance).filter
            (fun e => decide (e.score = c))) <+:
          ((providers.map (score_provider specialties target_zip target_insurance)).filter
            (fun e => decide (e.score = c))) := by
  refine ⟨?_, ?_, ?_⟩
  · simp [rank_providers]
  · exact (List.sorted_insertionSort scoreGE _).sublist (List.take_sublist 3 _)
  · intro c
    refine ⟨(((providers.map (score_provider specialties target_zip target_insurance)).insertionSort
      scoreGE).drop 3).filter (fun e => decide (e.score = c)), ?_⟩
    rw [rank_providers, ← List.filter_append, List.take_append_drop,
      filter_score_insertionSort]

/-- **C2 counterexample.** The claim says an empty input zip forces the 50.0
error-fallback, but `calculate_distance` in `provider_ranker.py` has no empty-string
guard: `"".isdigit()` is false, so an empty zip is parsed as the default 10000 and
`calculate_distance("", "")` returns 0.0, not 50.0. -/
theorem C2_counterexample :
    calculate_distance "" "" = 0 ∧ calculate_distance "" "" ≠ 50 := by
  have h : calculate_distance "" "" = 0 := by simp [calculate_distance]
  exact ⟨h, by rw [h]; norm_num⟩

/-- **C2 amended.** The zip5 rule holds (`zip5 "75024" = 75024`, `zip5 "abc" = 10000`)
and the distance between two equal zips is 0.0.  The empty-zip → 50.0 rule holds for
`calculate_distance` in `main.py`, which checks for empty inputs explicitly; in
`services/provider_ranker.py` an empty zip is treated like any non-digit string
(`zip5 = 10000`) and 50.0 is returned only if the computation raises, so
`calculate_distance "" "75024"` is 65.024 there, not 50.0. -/
theorem C2_amended_zip5_and_fallback :
    zip5 "75024" = 75024 ∧ zip5 "abc" = 10000
    ∧ (∀ z : String, calculate_distance z z = 0)
    ∧ (∀ z1 z2 : String, z1 = "" ∨ z2 = "" → main_calculate_distance z1 z2 = 50)
    ∧ calculate_distance "" "75024" = 65024 / 1000 := by
  refine ⟨by decide, by decide, ?_, ?_, ?_⟩
  · intro z
    simp [calculate_distance]
  · intro z1 z2 h
    simp [main_calculate_distance, h]
  · have h1 : zip5 "" = 10000 := by decide
    have h2 : zip5 "75024" = 75024 := by decide
    rw [calculate_distance, h1, h2]
    norm_num

/-- Witness for C2: the amended empty-zip rule of `main.py` at a concrete input. -/
theorem C2_witness : main_calculate_distance "" "75024" = 50 :=
  C2_amended_zip5_and_fallback.2.2.2.1 "" "75024" (Or.inl rfl)

/-- **C3.** For every provider scored by `rank_providers` whose dict has the
`specialty` and `insurances` keys, the specialty match is 1.0 when the specialty is
recommended and 0.3 otherwise, the insurance match is 1.0 when the target insurance
is accepted and 0.5 otherwise, the score is
`0.5·specialty_match + 0.3·insurance_match + 0.2·(1/(1+distance))`, and the score
lies in `[0, 1]`. -/
theorem C3_score_formula_and_bounds (p : Provider) (specialties : List String)
    (target_zip target_insurance : String) (s : String) (ins : List String)
    (hs : p.specialty = some s) (hins : p.insurances = some ins) :
    (score_provider specialties target_zip target_insurance p).score
        = 0.5 * (if s ∈ specialties then (1 : ℚ) else 0.3)
          + 0.3 * (if target_insurance ∈ ins then (1 : ℚ) else 0.5)
          + 0.2 * (1 / (1 + calculate_distance target_zip (p.zip_code.getD "")))
    ∧ 0 ≤ (score_provider specialties target_zip target_insurance p).score
    ∧ (score_provider specialties target_zip target_insurance p).score ≤ 1 := by
  have hd : 0 ≤ calculate_distance target_zip (p.zip_code.getD "") :=
    calculate_distance_nonneg _ _
  set d := calculate_distance target_zip (p.zip_code.getD "") with hdef
  have h1 : (0 : ℚ) < 1 + d := by linarith
  have h2 : 1 / (1 + d) ≤ 1 := by
    rw [div_le_one h1]; linarith
  have h3 : (0 : ℚ) < 1 / (1 + d) := by positivity
  simp only [score_provider, hs, hins, Option.getD_some, ← hdef]
  refine ⟨by ring, ?_, ?_⟩ <;> split_ifs <;> nlinarith

/-- Witness for C3 at a concrete well-formed provider. -/
theorem C3_witness :
    (score_provider ["Orthopedics"] "75024" "Cigna"
        (⟨some "Dr. A", some "Orthopedics", some "75024", some ["Cigna"], some 1,
          some "2024-01-01"⟩ : Provider)).score
        = 0.5 * (if "Orthopedics" ∈ ["Orthopedics"] then (1 : ℚ) else 0.3)
          + 0.3 * (if "Cigna" ∈ ["Cigna"] then (1 : ℚ) else 0.5)
          + 0.2 * (1 / (1 + calculate_distance "75024"
              ((Option.some "75024").getD "")))
    ∧ 0 ≤ (score_provider ["Orthopedics"] "75024" "Cigna"
        (⟨some "Dr. A", some "Orthopedics", some "75024", some ["Cigna"], some 1,
          some "2024-01-01"⟩ : Provider)).score
    ∧ (score_provider ["Orthopedics"] "75024" "Cigna"
        (⟨some "Dr. A", some "Orthopedics", some "75024", some ["Cigna"], some 1,
          some "2024-01-01"⟩ : Provider)).score ≤ 1 :=
  C3_score_formula_and_bounds _ ["Orthopedics"] "75024" "Cigna" "Orthopedics" ["Cigna"]
    rfl rfl

/-! ### Provider catalog (`services/provider_loader.py`) and specialty service -/

/-- `get_providers` from `services/provider_loader.py`.  The module-level
`_provider_cache` and the backing JSON file are passed explicitly: the function
returns the cached list unchanged when the cache is populated, otherwise reads the
source, stores it in the cache and returns it, and raises `HTTPException(500)`
(modelled as `.error ()`) when no source file exists.  The result pairs the returned
list with the cache state after the call. -/
def get_providers (cache : Option (List Provider)) (source : Option (List Provider)) :
    Except Unit (List Provider × Option (List Provider)) :=
  match cache with
  | some c => .ok (c, some c)
  | none =>
    match source with
    | some data => .ok (data, some data)
    | none => .error ()

/-- The module-level names defined by `services/provider_loader.py`: the file
defines exactly the cache variable and `get_providers` — in particular no
`clear_provider_cache`. -/
def provider_loader_defs : List String := ["_provider_cache", "get_providers"]

/-- `SpecialtyService.reload_data`: its body starts with
`from services.provider_loader import clear_provider_cache`.  Python resolves that
name against the module's definitions and raises `ImportError` when it is absent,
before any cache manipulation can happen; only if the import succeeded would the
cache be cleared and re-read. -/
def reload_data (_cache source : Option (List Provider)) :
    Except Unit (List Provider × Option (List Provider)) :=
  if "clear_provider_cache" ∈ provider_loader_defs then
    get_providers none source
  else .error ()

/-- **C4.** The load half of the claimed cache state machine holds: the first
successful `load()` populates the cache and every later `load()` returns the cached
list by value no matter how the source has changed in the meantime.  But the
invalidate half is broken: `provider_loader.py` defines no `clear_provider_cache`,
so `reload_data` (and the `/api/clear-cache` route, which does the same import)
raises `ImportError` instead of clearing the cache — no invalidate operation
exists. -/
theorem C4_cache_loads_but_invalidate_is_missing :
    (∀ d : List Provider, get_providers none (some d) = .ok (d, some d))
    ∧ (∀ (c : List Provider) (source : Option (List Provider)),
        get_providers (some c) source = .ok (c, some c))
    ∧ ("clear_provider_cache" ∈ provider_loader_defs) = False
    ∧ (∀ cache source, reload_data cache source = .error ()) := by
  refine ⟨fun d => rfl, fun c source => rfl, by simp [provider_loader_defs], ?_⟩
  intro _cache source
  rw [reload_data, if_neg (by simp [provider_loader_defs])]

/-- `SpecialtyService._extract_unique_specialties`: the set of `specialty` values
present across the loaded providers (a set, modelled as a deduplicated list). -/
def extract_unique_specialties (providers : List Provider) : List String :=
  (providers.filterMap (·.specialty)).dedup

/-- The fixed preference list in `SpecialtyService._get_fallback_specialties`. -/
def fallback_options : List String :=
  ["Orthopedics", "Sports Medicine", "Physical Therapy", "Primary Care",
   "Internal Medicine"]

/-- `SpecialtyService._get_fallback_specialties`: the fixed list intersected with the
available specialties, in fixed-list order, truncated to 3. -/
def get_fallback_specialties (available : List String) : List String :=
  (fallback_options.filter (fun s => decide (s ∈ available))).take 3

/-- The number of parameters (besides `self`) of
`backend-fastapi/services/llm_client.py`'s `LLMClient.get_specialties`, which is
`def get_specialties(self, injury_description)`. -/
def get_specialties_param_count : Nat := 1

/-- `SpecialtyService._get_llm_recommendations`.  `llm_specialties` is the list the
capability call `llm.get_specialties(injury_description, available_specialties_list)`
would return.  That call passes two arguments, so it only proceeds if the method
accepts two; with the actual one-parameter signature the call raises `TypeError`,
which the surrounding `except Exception` turns into the fallback.  If the call did
return, any name not in the available set would be filtered out, a non-empty filtered
list returned truncated to 3, and an empty one replaced by the fallback. -/
def get_llm_recommendations (llm_specialties : List String) (available : List String) :
    List String :=
  if get_specialties_param_count = 2 then
    let filtered := llm_specialties.filter (fun s => decide (s ∈ available))
    if filtered.isEmpty then get_fallback_specialties available
    else filtered.take 3
  else get_fallback_specialties available

/-- **C5 counterexample.** With a catalog whose only specialty is Cardiology, the
recommendation comes out empty even though the catalog's specialty set is not empty
(and even though the capability proposed an available specialty), refuting both
"1–3 names" and "empty only when the catalog's specialty set is empty". -/
theorem C5_counterexample :
    get_llm_recommendations ["Cardiology"]
        (extract_unique_specialties
          [⟨some "Dr. C", some "Cardiology", some "10001", some ["Aetna"], none,
            some "2024-01-01"⟩]) = []
    ∧ extract_unique_specialties
        [⟨some "Dr. C", some "Cardiology", some "10001", some ["Aetna"], none,
          some "2024-01-01"⟩] ≠ [] := by
  decide

/-- **C5 amended.** Every specialty recommendation is an ordered sequence of at most
3 names, each a member of the catalog's specialty set at the time of the call,
containing no duplicates; it is empty exactly when the catalog's specialty set
contains none of the five fixed fallback specialties (because the capability call
always fails — its signature takes one argument but is called with two — the result
is always the fallback list). -/
theorem C5_amended_recommendation_invariants (llm_specialties : List String)
    (providers : List Provider) :
    (get_llm_recommendations llm_specialties (extract_unique_specialties providers)).length ≤ 3
    ∧ (∀ s ∈ get_llm_recommendations llm_specialties (extract_unique_specialties providers),
        s ∈ extract_unique_specialties providers)
    ∧ (get_llm_recommendations llm_specialties (extract_unique_specialties providers)).Nodup
    ∧ (get_llm_recommendations llm_specialties (extract_unique_specialties providers) = []
        ↔ ∀ o ∈ fallback_options, o ∉ extract_unique_specialties providers) := by
  have harity : get_llm_recommendations llm_specialties (extract_unique_specialties providers)
      = get_fallback_specialties (extract_unique_specialties providers) := by
    rw [get_llm_recommendations, if_neg (by decide)]
  rw [harity]
  refine ⟨List.length_take_le 3 _, ?_, ?_, ?_⟩
  · intro s hs
    have := List.of_mem_filter ((List.take_subset 3 _) hs)
    simpa using this
  · exact ((List.take_sublist 3 _).nodup
      ((by decide : fallback_options.Nodup).filter _))
  · rw [get_fallback_specialties, List.take_eq_nil_iff]
    simp [List.filter_eq_nil_iff]

/-- Witness for C5 at a concrete one-provider catalog. -/
theorem C5_witness :
    "Orthopedics" ∈ extract_unique_specialties
        [⟨some "Dr. O", some "Orthopedics", some "75024", some ["Cigna"], none,
          some "2024-01-01"⟩] :=
  (C5_amended_recommendation_invariants []
      [⟨some "Dr. O", some "Orthopedics", some "75024", some ["Cigna"], none,
        some "2024-01-01"⟩]).2.1 "Orthopedics" (by decide)

/-- **C6.** The capability returned "Cardiology", which is in the available set, so
the claim's filtered list is the non-empty `["Cardiology"]` and the claim requires
exactly that list to be returned.  The code instead returns `[]` (the fallback
intersection): the call `llm.get_specialties(injury_description,
available_specialties_list)` passes two arguments to a one-parameter method, raises
`TypeError` on every call, and the filtering branch is unreachable. -/
theorem C6_arity_bug_forces_fallback :
    get_llm_recommendations ["Cardiology"] ["Cardiology"] = []
    ∧ (["Cardiology"].filter (fun s => decide (s ∈ (["Cardiology"] : List String))))
        = ["Cardiology"]
    ∧ get_specialties_param_count ≠ 2 := by
  decide

/-! ### Structured extraction (`backend/services/voice_service.py`) -/

/-- A word character of the regex `\b` boundary (`[A-Za-z0-9_]` for ASCII text). -/
def isWordChar (c : Char) : Bool := c.isAlphanum || c = '_'

/-- Does a contiguous occurrence of `pat` start somewhere in `s`?  This is Python's
`pat in s` substring test. -/
def containsChars (pat : List Char) : List Char → Bool
  | [] => pat.isEmpty
  | c :: cs => pat.isPrefixOf (c :: cs) || containsChars pat cs

/-- Does `\b\d{5}\b` match at the current position?  `prev` is the character just
before the position (`none` at the start of the string). -/
def zipHere (prev : Option Char) (l : List Char) : Bool :=
  (match prev with | none => true | some c => !isWordChar c)
  && decide (5 ≤ l.length)
  && (l.take 5).all Char.isDigit
  && (match l.drop 5 with | [] => true | c :: _ => !isWordChar c)

/-- Leftmost match of `re.findall(r'\b\d{5}\b', ...)`: scan positions left to right
and return the five digits of the first boundary-delimited match. -/
def findZipAux (prev : Option Char) : List Char → Option (List Char)
  | [] => none
  | c :: cs =>
    if zipHere prev (c :: cs) then some ((c :: cs).take 5)
    else findZipAux (some c) cs

/-- The first 5-digit pattern match in the transcription, if any. -/
def find_zip (s : List Char) : Option (List Char) := findZipAux none s

/-- The `specialty_keywords` table of `_fallback_extraction`, in source order. -/
def specialty_keywords : List (String × List String) :=
  [("Dentist", ["tooth", "teeth", "dental", "mouth", "gum"]),
   ("Cardiology", ["chest pain", "heart", "cardiac", "palpitation"]),
   ("Neurology", ["headache", "head injury", "brain", "seizure"]),
   ("Orthopedics", ["broken", "fracture", "bone", "joint", "knee", "shoulder"]),
   ("Dermatology", ["rash", "skin", "itch", "burn"]),
   ("ENT", ["ear", "nose", "throat", "hearing", "swallowing"]),
   ("Ophthalmology", ["eye", "vision", "blind", "sight"]),
   ("Psychiatry", ["anxiety", "depression", "mental", "mood"])]

/-- The `insurance_keywords` table of `_fallback_extraction`, in source order. -/
def insurance_keywords : List (String × List String) :=
  [("Blue Cross", ["blue cross", "bluecross"]),
   ("Aetna", ["aetna"]),
   ("Cigna", ["cigna"]),
   ("UnitedHealth", ["unitedhealth", "united health"]),
   ("Medicare", ["medicare"]),
   ("Humana", ["humana"]),
   ("Kaiser", ["kaiser", "kaiser permanente"])]

/-- The structured record produced by the extraction engine. -/
structure Extraction where
  injury_description : String
  zip_code : String
  insurance : String
  recommended_specialties : List String
deriving DecidableEq, Repr

/-- `VoiceService._fallback_extraction`: the deterministic extractor.  The raw text
becomes the injury description; the zip code is the first `\b\d{5}\b` match (empty if
none); the specialties are the keyword-matched table entries in table order, the
generalist pair when no keyword matches, truncated to 3 at the end; the insurance is
the first lexicon entry with a matching keyword in the lowercased text (`break` after
the first hit), empty if none. -/
def fallback_extraction (raw : String) : Extraction :=
  let lower := raw.data.map Char.toLower
  let zip := ((find_zip raw.data).map fun cs => String.mk cs).getD ""
  let matched := (specialty_keywords.filter
    (fun p => p.2.any fun kw => containsChars kw.data lower)).map Prod.fst
  let specialties := if matched.isEmpty then ["General Surgery", "Primary Care"]
    else matched
  let insurance := ((insurance_keywords.find?
    (fun p => p.2.any fun kw => containsChars kw.data lower)).map Prod.fst).getD ""
  { injury_description := raw, zip_code := zip, insurance := insurance,
    recommended_specialties := specialties.take 3 }

/-- Whatever the zip scanner returns is five digits occurring contiguously in the
scanned text. -/
lemma findZipAux_some (prev : Option Char) (l : List Char) (cs : List Char)
    (h : findZipAux prev l = some cs) :
    cs.length = 5 ∧ cs.all Char.isDigit = true ∧ containsChars cs l = true := by
  induction l generalizing prev with
  | nil => simp [findZipAux] at h
  | cons c t ih =>
    rw [findZipAux] at h
    split at h
    case isTrue hz =>
      have hcs : cs = (c :: t).take 5 := (Option.some.inj h).symm
      have hlen : 5 ≤ (c :: t).length := by
        have := hz
        unfold zipHere at this
        simp only [Bool.and_eq_true, decide_eq_true_eq] at this
        exact this.1.1.2
      have hdig : ((c :: t).take 5).all Char.isDigit = true := by
        have := hz
        unfold zipHere at this
        simp only [Bool.and_eq_true] at this
        exact this.1.2
      refine ⟨?_, ?_, ?_⟩
      · rw [hcs, List.length_take]
        omega
      · rw [hcs]; exact hdig
      · rw [containsChars, hcs, Bool.or_eq_true]
        left
        exact List.isPrefixOf_iff_prefix.mpr (List.take_prefix 5 _)
    case isFalse =>
      obtain ⟨h1, h2, h3⟩ := ih (some c) h
      exact ⟨h1, h2, by rw [containsChars, Bool.or_eq_true]; right; exact h3⟩

/-- Unfolding equations for the fields of `fallback_extraction`. -/
lemma fallback_extraction_zip_code (raw : String) :
    (fallback_extraction raw).zip_code
      = ((find_zip raw.data).map fun cs => String.mk cs).getD "" := rfl

lemma fallback_extraction_insurance (raw : String) :
    (fallback_extraction raw).insurance
      = ((insurance_keywords.find?
          (fun p => p.2.any fun kw => containsChars kw.data (raw.data.map Char.toLower))).map
            Prod.fst).getD "" := rfl

lemma fallback_extraction_specialties (raw : String) :
    (fallback_extraction raw).recommended_specialties
      = (if ((specialty_keywords.filter
            (fun p => p.2.any fun kw => containsChars kw.data (raw.data.map Char.toLower))).map
              Prod.fst).isEmpty
         then ["General Surgery", "Primary Care"]
         else (specialty_keywords.filter
            (fun p => p.2.any fun kw => containsChars kw.data (raw.data.map Char.toLower))).map
              Prod.fst).take 3 := rfl

/-- **C7.** The deterministic fallback extractor is total (it never raises) and for
every raw text: the injury description is the raw text itself; the zip code is
either empty or the five-digit pattern match, a digit substring of the raw text; the
insurance is either empty or a name from the fixed insurer lexicon; the recommended
specialties are at most 3, never empty, and drawn from the keyword table or the
generalist default.  For the raw text "My knee hurts, zip 75024" the zip code is
"75024" and the specialties contain "Orthopedics". -/
theorem C7_fallback_extraction_contract :
    (∀ raw : String,
      (fallback_extraction raw).injury_description = raw
      ∧ ((fallback_extraction raw).zip_code = ""
          ∨ ((fallback_extraction raw).zip_code.length = 5
             ∧ (fallback_extraction raw).zip_code.data.all Char.isDigit = true
             ∧ containsChars (fallback_extraction raw).zip_code.data raw.data = true))
      ∧ ((fallback_extraction raw).insurance = ""
          ∨ (fallback_extraction raw).insurance ∈ insurance_keywords.map Prod.fst)
      ∧ (fallback_extraction raw).recommended_specialties ≠ []
      ∧ (fallback_extraction raw).recommended_specialties.length ≤ 3
      ∧ (∀ s ∈ (fallback_extraction raw).recommended_specialties,
          s ∈ specialty_keywords.map Prod.fst ∨ s ∈ ["General Surgery", "Primary Care"]))
    ∧ (fallback_extraction "My knee hurts, zip 75024").zip_code = "75024"
    ∧ "Orthopedics" ∈ (fallback_extraction "My knee hurts, zip 75024").recommended_specialties := by
  refine ⟨?_, by decide, by decide⟩
  intro raw
  refine ⟨rfl, ?_, ?_, ?_, ?_, ?_⟩
  · rw [fallback_extraction_zip_code]
    cases hz : find_zip raw.data with
    | none => left; rfl
    | some cs =>
      right
      obtain ⟨h1, h2, h3⟩ := findZipAux_some none raw.data cs hz
      exact ⟨h1, h2, h3⟩
  · rw [fallback_extraction_insurance]
    cases hf : insurance_keywords.find?
        (fun p => p.2.any fun kw => containsChars kw.data (raw.data.map Char.toLower)) with
    | none => left; rfl
    | some p =>
      right
      exact List.mem_map_of_mem Prod.fst (List.mem_of_find?_eq_some hf)
  · rw [fallback_extraction_specialties]
    split
    · decide
    case isFalse hne =>
      rw [Ne, List.take_eq_nil_iff]
      simp only [List.isEmpty_iff] at hne
      simp [hne]
  · rw [fallback_extraction_specialties]
    exact List.length_take_le 3 _
  · intro s hs
    rw [fallback_extraction_specialties] at hs
    have hs' := List.take_subset 3 _ hs
    split at hs'
    · right; exact hs'
    · left
      obtain ⟨p, hp, rfl⟩ := List.mem_map.mp hs'
      exact List.mem_map_of_mem Prod.fst (List.mem_of_mem_filter hp)

/-- Witness for C7 at a concrete raw text. -/
theorem C7_witness :
    (fallback_extraction "toothache").injury_description = "toothache"
    ∧ ("Dentist" ∈ specialty_keywords.map Prod.fst
        ∨ "Dentist" ∈ ["General Surgery", "Primary Care"]) :=
  ⟨(C7_fallback_extraction_contract.1 "toothache").1,
   (C7_fallback_extraction_contract.1 "toothache").2.2.2.2.2 "Dentist" (by decide)⟩

/-! ### LLM-path extraction (`_extract_medical_info_with_llm`) -/

/-- The substring selected by `re.search(r'\x7b.*\x7d', response_text, re.DOTALL)`:
with the greedy `.*` this is the span from the first opening brace to the last
closing brace of the whole text (if the first opening brace has any closing brace
after it), not the first balanced object. -/
def jsonSpan (s : List Char) : Option (List Char) :=
  let t := s.dropWhile (fun c => c ≠ '\x7b')
  let r := t.reverse.dropWhile (fun c => c ≠ '\x7d')
  if r.isEmpty then none else some r.reverse

/-- JSON values as they occur in the extraction schema (strings, arrays of strings,
integers, booleans, null); the model of `json.loads` below is restricted to these. -/
inductive JVal where
  | jstr : String → JVal
  | jarr : List String → JVal
  | jnum : Int → JVal
  | jbool : Bool → JVal
  | jnull : JVal
deriving DecidableEq, Repr

/-- JSON whitespace. -/
def isJsonWs (c : Char) : Bool := c = ' ' || c = '\n' || c = '\t' || c = '\r'

def skipWs (l : List Char) : List Char := l.dropWhile isJsonWs

/-- Parse the body of a double-quoted JSON string (opening quote already consumed),
returning content and remaining input. -/
def jstringAux : List Char → Option (List Char × List Char)
  | [] => none
  | c :: cs =>
    if c = '"' then some ([], cs)
    else if c = '\\' then
      match cs with
      | [] => none
      | e :: cs' =>
        let esc : Option Char :=
          if e = '"' then some '"' else if e = '\\' then some '\\'
          else if e = '/' then some '/' else if e = 'n' then some '\n'
          else if e = 't' then some '\t' else if e = 'r' then some '\r' else none
        match esc with
        | some ch => (jstringAux cs').map fun a => (ch :: a.1, a.2)
        | none => none
    else (jstringAux cs).map fun a => (c :: a.1, a.2)

/-- Parse a non-empty run of digits as a natural number. -/
def parseNatTok (l : List Char) : Option (Nat × List Char) :=
  let ds := l.takeWhile Char.isDigit
  if ds.isEmpty then none else some (parseDigits ds, l.dropWhile Char.isDigit)

/-- Parse a JSON integer (optional minus sign). -/
def parseJNum (l : List Char) : Option (Int × List Char) :=
  match l with
  | '-' :: rest => (parseNatTok rest).map fun a => (-(a.1 : Int), a.2)
  | _ => (parseNatTok l).map fun a => ((a.1 : Int), a.2)

/-- Parse the comma-separated string items of a JSON array (after `[`), ending at
`]`.  The fuel bounds the number of items. -/
def jarrItems : Nat → List Char → Option (List String × List Char)
  | 0, _ => none
  | fuel + 1, l =>
    match skipWs l with
    | '"' :: cs =>
      match jstringAux cs with
      | some (str, rest) =>
        match skipWs rest with
        | ',' :: rest' => (jarrItems fuel rest').map fun a => (String.mk str :: a.1, a.2)
        | ']' :: rest' => some ([String.mk str], rest')
        | _ => none
      | none => none
    | _ => none

/-- Parse one JSON value of the schema grammar. -/
def parseJVal (l : List Char) : Option (JVal × List Char) :=
  match skipWs l with
  | '"' :: cs => (jstringAux cs).map fun a => (JVal.jstr (String.mk a.1), a.2)
  | '[' :: cs =>
    (match skipWs cs with
     | ']' :: rest => some (JVal.jarr [], rest)
     | _ => (jarrItems (cs.length + 1) cs).map fun a => (JVal.jarr a.1, a.2))
  | l' =>
    if l'.take 4 = "true".data then some (JVal.jbool true, l'.drop 4)
    else if l'.take 5 = "false".data then some (JVal.jbool false, l'.drop 5)
    else if l'.take 4 = "null".data then some (JVal.jnull, l'.drop 4)
    else (parseJNum l').map fun a => (JVal.jnum a.1, a.2)

/-- Parse the members of a JSON object (after `\x7b`), ending at `\x7d`. -/
def jobjMembers : Nat → List Char → Option (List (String × JVal) × List Char)
  | 0, _ => none
  | fuel + 1, l =>
    match skipWs l with
    | '"' :: cs =>
      match jstringAux cs with
      | some (key, rest) =>
        match skipWs rest with
        | ':' :: rest' =>
          match parseJVal rest' with
          | some (v, rest'') =>
            match skipWs rest'' with
            | ',' :: rest3 =>
              (jobjMembers fuel rest3).map fun a => ((String.mk key, v) :: a.1, a.2)
            | '\x7d' :: rest3 => some ([(String.mk key, v)], rest3)
            | _ => none
          | none => none
        | _ => none
      | none => none
    | _ => none

/-- `json.loads` on the schema grammar: the whole input must be a single JSON
object, up to surrounding whitespace; anything else is a parse error (`none`). -/
def loads (l : List Char) : Option (List (String × JVal)) :=
  match skipWs l with
  | '\x7b' :: cs =>
    (match skipWs cs with
     | '\x7d' :: rest => if (skipWs rest).isEmpty then some [] else none
     | _ =>
       match jobjMembers (cs.length + 1) cs with
       | some (ms, rest) => if (skipWs rest).isEmpty then some ms else none
       | none => none)
  | _ => none

/-- `key in dict` / `dict[key]` for the parsed object (an association list in
member order, as `json.loads` preserves it). -/
def lookupField (k : String) (kvs : List (String × JVal)) : Option JVal :=
  (kvs.find? fun kv => decide (kv.1 = k)).map Prod.snd

/-- `if key not in structured_data: structured_data[key] = default` — a missing key
is appended at the end of the dict, a present one is left untouched. -/
def setdefaultField (k : String) (v : JVal) (kvs : List (String × JVal)) :
    List (String × JVal) :=
  if (lookupField k kvs).isSome then kvs else kvs ++ [(k, v)]

/-- The four default insertions of `_extract_medical_info_with_llm`, in source
order. -/
def withDefaults (kvs : List (String × JVal)) : List (String × JVal) :=
  setdefaultField "recommended_specialties" (JVal.jarr [])
    (setdefaultField "insurance" (JVal.jstr "")
      (setdefaultField "zip_code" (JVal.jstr "")
        (setdefaultField "injury_description"
          (JVal.jstr "No specific symptoms mentioned") kvs)))

/-- The dict literal returned by `_fallback_extraction`, in source key order. -/
def extraction_to_dict (e : Extraction) : List (String × JVal) :=
  [("injury_description", JVal.jstr e.injury_description),
   ("zip_code", JVal.jstr e.zip_code),
   ("insurance", JVal.jstr e.insurance),
   ("recommended_specialties", JVal.jarr e.recommended_specialties)]

/-- `VoiceService._extract_medical_info_with_llm`.  `response` is the text returned
by the capability (`none` when the client raises).  The regex span is extracted and
parsed; on a parse failure, a missing span, or a raised capability call the function
returns `_fallback_extraction` of the transcription; on success the parsed object
with the four defaults applied. -/
def extract_medical_info_with_llm (response : Option String) (transcription : String) :
    List (String × JVal) :=
  match response with
  | none => extraction_to_dict (fallback_extraction transcription)
  | some resp =>
    match jsonSpan resp.data with
    | none => extraction_to_dict (fallback_extraction transcription)
    | some span =>
      match loads span with
      | some kvs => withDefaults kvs
      | none => extraction_to_dict (fallback_extraction transcription)

/-- The parse the spec describes, for comparison: the first *balanced* JSON object
substring of the response, found by scanning from the first opening brace to its
matching closing brace.  This definition follows the spec's words, not the code. -/
def spec_first_balanced_json (s : List Char) : Option (List Char) :=
  specBalancedAux (s.dropWhile (fun c => c ≠ '\x7b')) 0 []
where
  specBalancedAux : List Char → Nat → List Char → Option (List Char)
    | [], _, _ => none
    | c :: cs, depth, acc =>
      if c = '\x7b' then specBalancedAux cs (depth + 1) (acc ++ [c])
      else if c = '\x7d' then
        if depth = 1 then some (acc ++ [c])
        else if depth = 0 then none
        else specBalancedAux cs (depth - 1) (acc ++ [c])
      else specBalancedAux cs depth (acc ++ [c])

/-- Looking a key up in a concatenated dict reads the left part first. -/
lemma lookupField_append (k : String) (l t : List (String × JVal)) :
    lookupField k (l ++ t) = (lookupField k l).or (lookupField k t) := by
  rw [lookupField, List.find?_append]
  cases h : l.find? (fun kv => decide (kv.1 = k)) <;>
    simp [lookupField, h]

/-- `setdefault` on the looked-up key itself: the stored value wins, else the
default. -/
lemma lookupField_setdefault_same (k : String) (v : JVal) (l : List (String × JVal)) :
    lookupField k (setdefaultField k v l) = (lookupField k l).or (some v) := by
  rw [setdefaultField]
  cases h : lookupField k l with
  | some w => rw [if_pos (by rfl), h]; rfl
  | none =>
    rw [if_neg (by simp), lookupField_append, h]
    simp [lookupField]

/-- `setdefault` on a different key does not change a lookup. -/
lemma lookupField_setdefault_ne (k k' : String) (v : JVal) (l : List (String × JVal))
    (h : k' ≠ k) :
    lookupField k (setdefaultField k' v l) = lookupField k l := by
  rw [setdefaultField]
  split
  · rfl
  · rw [lookupField_append]
    have : lookupField k [(k', v)] = none := by simp [lookupField, h]
    rw [this]
    cases lookupField k l <;> rfl

/-- `setdefault` never changes a key that is already present. -/
lemma lookupField_setdefault_isSome (k k' : String) (v : JVal) (l : List (String × JVal))
    (h : (lookupField k l).isSome) :
    lookupField k (setdefaultField k' v l) = lookupField k l := by
  by_cases hkk : k' = k
  · subst hkk
    rw [lookupField_setdefault_same]
    cases hh : lookupField k' l with
    | some w => rfl
    | none => rw [hh] at h; simp at h
  · exact lookupField_setdefault_ne k k' v l hkk

/-- **C8 amended.** When the AI extraction path returns text, the parser takes the
span from the first opening brace to the last closing brace of the response (the
greedy DOTALL regex — not the first balanced object; a response whose greedy span is
not valid JSON falls back to the deterministic extractor) and parses it; whenever
that span parses, any field missing from the parsed object is defaulted —
`injury_description` to "No specific symptoms mentioned", `zip_code` and `insurance`
to the empty string, `recommended_specialties` to the empty sequence — and present
fields are kept unchanged. -/
theorem C8_greedy_span_parse_and_defaults (resp raw : String) (span : List Char)
    (kvs : List (String × JVal))
    (hspan : jsonSpan resp.data = some span) (hloads : loads span = some kvs) :
    extract_medical_info_with_llm (some resp) raw = withDefaults kvs
    ∧ (lookupField "injury_description" kvs = none →
        lookupField "injury_description" (withDefaults kvs)
          = some (JVal.jstr "No specific symptoms mentioned"))
    ∧ (lookupField "zip_code" kvs = none →
        lookupField "zip_code" (withDefaults kvs) = some (JVal.jstr ""))
    ∧ (lookupField "insurance" kvs = none →
        lookupField "insurance" (withDefaults kvs) = some (JVal.jstr ""))
    ∧ (lookupField "recommended_specialties" kvs = none →
        lookupField "recommended_specialties" (withDefaults kvs) = some (JVal.jarr []))
    ∧ (∀ k : String, (lookupField k kvs).isSome →
        lookupField k (withDefaults kvs) = lookupField k kvs) := by
  refine ⟨?_, ?_, ?_, ?_, ?_, ?_⟩
  · simp only [extract_medical_info_with_llm, hspan, hloads]
  · intro h
    rw [withDefaults,
      lookupField_setdefault_ne _ _ _ _ (by decide),
      lookupField_setdefault_ne _ _ _ _ (by decide),
      lookupField_setdefault_ne _ _ _ _ (by decide),
      lookupField_setdefault_same, h]
    rfl
  · intro h
    rw [withDefaults,
      lookupField_setdefault_ne _ _ _ _ (by decide),
      lookupField_setdefault_ne _ _ _ _ (by decide),
      lookupField_setdefault_same,
      lookupField_setdefault_ne _ _ _ _ (by decide), h]
    rfl
  · intro h
    rw [withDefaults,
      lookupField_setdefault_ne _ _ _ _ (by decide),
      lookupField_setdefault_same,
      lookupField_setdefault_ne _ _ _ _ (by decide),
      lookupField_setdefault_ne _ _ _ _ (by decide), h]
    rfl
  · intro h
    rw [withDefaults, lookupField_setdefault_same,
      lookupField_setdefault_ne _ _ _ _ (by decide),
      lookupField_setdefault_ne _ _ _ _ (by decide),
      lookupField_setdefault_ne _ _ _ _ (by decide), h]
    rfl
  · intro k hk
    have h1 := lookupField_setdefault_isSome k "injury_description"
      (JVal.jstr "No specific symptoms mentioned") kvs hk
    have h1s : (lookupField k (setdefaultField "injury_description"
        (JVal.jstr "No specific symptoms mentioned") kvs)).isSome := by
      rw [h1]; exact hk
    have h2 := lookupField_setdefault_isSome k "zip_code" (JVal.jstr "") _ h1s
    have h2s : (lookupField k (setdefaultField "zip_code" (JVal.jstr "")
        (setdefaultField "injury_description"
          (JVal.jstr "No specific symptoms mentioned") kvs))).isSome := by
      rw [h2]; exact h1s
    have h3 := lookupField_setdefault_isSome k "insurance" (JVal.jstr "") _ h2s
    have h3s : (lookupField k (setdefaultField "insurance" (JVal.jstr "")
        (setdefaultField "zip_code" (JVal.jstr "")
          (setdefaultField "injury_description"
            (JVal.jstr "No specific symptoms mentioned") kvs)))).isSome := by
      rw [h3]; exact h2s
    have h4 := lookupField_setdefault_isSome k "recommended_specialties"
      (JVal.jarr []) _ h3s
    rw [withDefaults, h4, h3, h2, h1]

/-- Witness for C8 at a concrete response with leading prose. -/
theorem C8_witness :
    extract_medical_info_with_llm (some "ok \x7b\"zip_code\": \"75024\"\x7d") "knee"
      = withDefaults [("zip_code", JVal.jstr "75024")] :=
  (C8_greedy_span_parse_and_defaults "ok \x7b\"zip_code\": \"75024\"\x7d" "knee"
    ("\x7b\"zip_code\": \"75024\"\x7d".data) [("zip_code", JVal.jstr "75024")]
    (by decide) (by decide)).1

/-- **C8 counterexample.** On a response holding two JSON objects separated by
prose, the first balanced JSON object substring parses (to a dict with zip code
"11111", which the claim says is the parse result, defaulted), but the code's
greedy first-brace-to-last-brace span is not valid JSON, so the code returns the
deterministic fallback of the raw text instead. -/
theorem C8_counterexample :
    spec_first_balanced_json
        "\x7b\"zip_code\": \"11111\"\x7d x \x7b\"zip_code\": \"22222\"\x7d".data
      = some ("\x7b\"zip_code\": \"11111\"\x7d".data)
    ∧ loads ("\x7b\"zip_code\": \"11111\"\x7d".data)
      = some [("zip_code", JVal.jstr "11111")]
    ∧ extract_medical_info_with_llm
        (some "\x7b\"zip_code\": \"11111\"\x7d x \x7b\"zip_code\": \"22222\"\x7d")
        "knee pain"
      = extraction_to_dict (fallback_extraction "knee pain")
    ∧ extract_medical_info_with_llm
        (some "\x7b\"zip_code\": \"11111\"\x7d x \x7b\"zip_code\": \"22222\"\x7d")
        "knee pain"
      ≠ withDefaults [("zip_code", JVal.jstr "11111")] := by
  decide

/-! ### Transcription adapter (`VoiceService.__init__`, `_init_azure_speech`,
`_transcribe_with_azure`, `_transcribe_with_whisper`, `process_audio_file`) -/

/-- The environment configuration read by `VoiceService.__init__` and
`_init_azure_speech`: whether `USE_AZURE_SPEECH` is "true" and whether the two Azure
credentials are set. -/
structure VoiceConfig where
  use_azure_env : Bool
  azure_key : Bool
  azure_region : Bool
deriving DecidableEq, Repr

/-- The relevant instance state after `__init__`: `self.use_azure` and whether
`self.azure_speech_config` is non-None. -/
structure VoiceState where
  use_azure : Bool
  azure_speech_config : Bool
deriving DecidableEq, Repr

/-- `__init__` + `_init_azure_speech`: Azure is enabled only when requested by the
environment and both credentials are present; otherwise `use_azure` is reset to
False and no speech config is created. -/
def voice_service_init (cfg : VoiceConfig) : VoiceState :=
  if cfg.use_azure_env then
    if cfg.azure_key && cfg.azure_region then ⟨true, true⟩ else ⟨false, false⟩
  else ⟨false, false⟩

/-- The transcription-unavailable hard failure of the error taxonomy: raised by
`_transcribe_with_whisper` as `Exception("Whisper model not loaded")` (and re-raised
by `process_audio_file`) when the local model is not available. -/
inductive VoiceError where
  | transcriptionUnavailable
deriving DecidableEq, Repr

/-- The transcript dict: text, confidence and the `method` tag naming the backend
that produced the text. -/
structure Transcript where
  text : String
  confidence : ℚ
  method : String
deriving DecidableEq, Repr

/-- `_transcribe_with_whisper`.  `whisper_result` is the text/confidence the loaded
local model produces for the audio; `none` means the model is not loaded (or its
call raised), in which case the exception propagates. -/
def transcribe_with_whisper (whisper_result : Option (String × ℚ)) :
    Except VoiceError Transcript :=
  match whisper_result with
  | some r => .ok ⟨r.1, r.2, "whisper"⟩
  | none => .error .transcriptionUnavailable

/-- `_transcribe_with_azure`.  `azure_result` is the recognized text; `none` covers
every failure (the recognizer raising or a non-`RecognizedSpeech` reason), and every
failure falls back to Whisper.  A successful Azure call is tagged "azure" with the
hard-coded 0.9 confidence. -/
def transcribe_with_azure (azure_result : Option String)
    (whisper_result : Option (String × ℚ)) : Except VoiceError Transcript :=
  match azure_result with
  | some t => .ok ⟨t, 0.9, "azure"⟩
  | none => transcribe_with_whisper whisper_result

/-- The backend selection in `process_audio_file`:
`if self.use_azure and self.azure_speech_config: azure else whisper`. -/
def transcribe_adapter (st : VoiceState) (azure_result : Option String)
    (whisper_result : Option (String × ℚ)) : Except VoiceError Transcript :=
  if st.use_azure && st.azure_speech_config then
    transcribe_with_azure azure_result whisper_result
  else transcribe_with_whisper whisper_result

/-- **C9.** For every configuration and backend outcome: if the cloud backend is
selected but misconfigured (a credential missing), the request is transcribed by the
local backend; if the cloud call fails, likewise; the `method` tag of a returned
transcript always names the backend that actually produced the text (an "azure" tag
implies Azure was enabled and recognized exactly that text, a "whisper" tag implies
the local model produced it); and when the local backend is unavailable and the
cloud backend has not produced text, the call fails with the
transcription-unavailable error. -/
theorem C9_transcription_fallback_and_method_tag (cfg : VoiceConfig)
    (azure_result : Option String) (whisper_result : Option (String × ℚ)) :
    (cfg.use_azure_env = true → (cfg.azure_key && cfg.azure_region) = false →
      transcribe_adapter (voice_service_init cfg) azure_result whisper_result
        = transcribe_with_whisper whisper_result)
    ∧ (azure_result = none →
      transcribe_adapter (voice_service_init cfg) azure_result whisper_result
        = transcribe_with_whisper whisper_result)
    ∧ (∀ t : Transcript,
        transcribe_adapter (voice_service_init cfg) azure_result whisper_result
          = .ok t →
        (t.method = "azure" ∧ azure_result = some t.text
            ∧ (voice_service_init cfg).use_azure = true)
        ∨ (t.method = "whisper" ∧ whisper_result = some (t.text, t.confidence)))
    ∧ (whisper_result = none → azure_result = none →
        transcribe_adapter (voice_service_init cfg) azure_result whisper_result
          = .error .transcriptionUnavailable) := by
  refine ⟨?_, ?_, ?_, ?_⟩
  · intro h1 h2
    rw [transcribe_adapter, voice_service_init, if_pos h1, if_neg (by rw [h2]; simp)]
  · intro ha
    subst ha
    rw [transcribe_adapter]
    split
    · rfl
    · rfl
  · intro t ht
    rw [transcribe_adapter] at ht
    split at ht
    case isTrue hsel =>
      cases azure_result with
      | some a =>
        simp only [transcribe_with_azure] at ht
        cases ht
        exact Or.inl ⟨rfl, rfl, (Bool.and_eq_true _ _ |>.mp hsel).1⟩
      | none =>
        simp only [transcribe_with_azure] at ht
        cases whisper_result with
        | some r =>
          simp only [transcribe_with_whisper] at ht
          cases ht
          exact Or.inr ⟨rfl, rfl⟩
        | none => simp only [transcribe_with_whisper] at ht; cases ht
    case isFalse =>
      cases whisper_result with
      | some r =>
        simp only [transcribe_with_whisper] at ht
        cases ht
        exact Or.inr ⟨rfl, rfl⟩
      | none => simp only [transcribe_with_whisper] at ht; cases ht
  · intro hw ha
    subst hw; subst ha
    rw [transcribe_adapter]
    split
    · rfl
    · rfl

/-- Witness for C9: a misconfigured cloud backend falls back to the local model, and
with both backends unavailable the concrete call fails with the
transcription-unavailable error. -/
theorem C9_witness :
    transcribe_adapter (voice_service_init ⟨true, false, true⟩) none (some ("hi", 0))
      = transcribe_with_whisper (some ("hi", 0))
    ∧ transcribe_adapter (voice_service_init ⟨true, true, true⟩) none none
      = .error VoiceError.transcriptionUnavailable :=
  ⟨(C9_transcription_fallback_and_method_tag ⟨true, false, true⟩ none
      (some ("hi", 0))).1 rfl rfl,
   (C9_transcription_fallback_and_method_tag ⟨true, true, true⟩ none none).2.2.2
      rfl rfl⟩

/-! ### `rank_providers` of `backend-fastapi/main.py` (validation + top-5 variant) -/

/-- One element of `ranked_providers` in `main.py`: the provider dict itself plus
score and reason. -/
structure MainRankedItem where
  provider : Provider
  score : ℚ
  ranking_reason : String
deriving DecidableEq, Repr

/-- Descending-score comparison for the `main.py` sort. -/
def mainScoreGE (a b : MainRankedItem) : Prop := b.score ≤ a.score

instance : DecidableRel mainScoreGE :=
  fun a b => inferInstanceAs (Decidable (b.score ≤ a.score))

instance : IsTotal MainRankedItem mainScoreGE := ⟨fun a b => le_total b.score a.score⟩

instance : IsTrans MainRankedItem mainScoreGE := ⟨fun _ _ _ hab hbc => le_trans hbc hab⟩

/-- The loop body of `rank_providers` in `main.py`.  The validation loop
`for field in required_fields: if field not in provider: print(...); continue` has
no effect — its `continue` targets the field loop, not the provider loop — so the
body proceeds to the subscript reads `provider["specialty"]`,
`provider["zip_code"]`, `provider["insurances"]`; a `KeyError` there is caught by
the per-provider `except`, which skips the provider (`none`). -/
def main_process_provider (recommended : List String) (target_zip target_insurance : String)
    (p : Provider) : Option MainRankedItem :=
  match p.specialty, p.zip_code, p.insurances with
  | some s, some z, some ins =>
    let specialty_match : ℚ := if s ∈ recommended then 1 else 0.3
    let distance := main_calculate_distance target_zip z
    let insurance_match : ℚ := if target_insurance ∈ ins then 1 else 0.5
    let score := specialty_match * 0.5 + insurance_match * 0.3 + 1 / (1 + distance) * 0.2
    let reasons :=
      (if specialty_match > 0.8 then ["Specialty match"] else []) ++
      (if insurance_match > 0.8 then ["Insurance accepted"] else []) ++
      (if distance < 10 then ["Close proximity"] else [])
    some ⟨p, score, if reasons.isEmpty then "General match" else ", ".intercalate reasons⟩
  | _, _, _ => none

/-- The response model built by `main.py`. -/
structure ProviderMatchResponse where
  name : String
  specialty : String
  distance : ℚ
  availability : String
  ranking_reason : String
deriving DecidableEq, Repr

/-- The response construction
`ProviderMatchResponse(name=p["provider"]["name"], ...)`: these subscript reads run
in the comprehension after the per-provider try/except, so a missing key raises
`KeyError` out of the whole call (`none` here). -/
def build_response (it : MainRankedItem) : Option ProviderMatchResponse :=
  match it.provider.name, it.provider.specialty, it.provider.distance,
      it.provider.availability_date with
  | some n, some s, some d, some a => some ⟨n, s, d, a, it.ranking_reason⟩
  | _, _, _, _ => none

/-- `rank_providers` from `main.py`: process providers (skipping only those whose
`KeyError` occurs inside the per-provider try), stable-sort by score descending,
take the top 5, then build the response models; a `KeyError` during response
construction propagates to the outer handler, which re-raises
(`Failed to rank providers`, modelled as `.error ()`). -/
def main_rank_providers (providers : List Provider) (recommended : List String)
    (target_zip target_insurance : String) : Except Unit (List ProviderMatchResponse) :=
  let ranked := providers.filterMap (main_process_provider recommended target_zip target_insurance)
  let top := (ranked.insertionSort mainScoreGE).take 5
  match top.mapM build_response with
  | some res => .ok res
  | none => .error ()

/-- **C10.** A provider whose dict lacks only the required field `distance` passes
the broken validation (its `continue` skips the field check, not the provider), is
scored and ranked, and then the response construction raises `KeyError`, aborting
the whole ranking call — the claim's "skipped with a warning, never aborts" fails.
The `provider_ranker.py` variant does not skip either: a provider missing every
field still yields one (degenerate) ranked entry instead of being excluded. -/
theorem C10_missing_field_aborts_main_ranking :
    main_rank_providers
        [⟨some "Dr. A", some "Orthopedics", some "75024", some ["Cigna"], none,
          some "2024-06-01"⟩]
        ["Orthopedics"] "75024" "Cigna" = .error ()
    ∧ (rank_providers [⟨none, none, none, none, none, none⟩] [] "" "").length = 1 :=
  ⟨rfl, rfl⟩

end Pathways
